import Mathlib

/-!
Verification of the connection-manager subsystem of pm2-io-apm-go
(package services, file transporter.go under src).

The Go code is shallowly embedded: each method becomes a pure Lean
function from explicit state to state plus a list of emitted effects.
JSON values (Go interface values round-tripped through encoding/json)
are modelled by an inductive `Json` AST; the byte-level JSON codec of
the Go standard library is treated as a faithful bijection between
wire bytes and this AST, so marshalling is the identity at the AST
level and unmarshalling failure is the `none` case of an `Option`.
Runtime panics (nil-pointer dereference, failed type assertion) are
modelled by an `Option`/dedicated constructor result.
-/

namespace Pm2Apm

/-- JSON values, the image of Go values under encoding/json.
Numbers are modelled as integers: no claim depends on fractional
numbers. -/
inductive Json where
  | null : Json
  | bool (b : Bool) : Json
  | num (n : Int) : Json
  | str (s : String) : Json
  | arr (elems : List Json) : Json
  | obj (fields : List (String × Json)) : Json

/-- Lookup of a key in a decoded JSON object
(Go `dat["key"]` on a `map[string]interface` value). -/
def lookupField : List (String × Json) → String → Option Json
  | [], _ => none
  | (k, v) :: rest, key => if k = key then some v else lookupField rest key

/-- The mutable fields of `Transporter` (transporter.go lines 134-150)
that the claims are about.  `wsNode` is the cached endpoint pointer:
`none` models a nil pointer.  The `ws` handle itself is not a state
field here; operations on it appear as emitted `Effect`s. -/
structure TransporterState where
  isConnected : Bool
  isHandling : Bool
  isConnecting : Bool
  isClosed : Bool
  wsNode : Option String
deriving DecidableEq

/-- Observable actions performed on the stream handle or scheduler. -/
inductive Effect where
  | closeStream : Effect
  | invokeConnect : Effect
  | write (frame : Json) : Effect

/-- `Transporter.CloseAndReconnect` (transporter.go lines 372-383):
if `isConnecting` return at once; otherwise close the stream unless
`isClosed` (set by the close handler when the remote peer closed it),
mark disconnected, mark connecting and call `Connect` (the call is
emitted as the final effect). -/
def CloseAndReconnect (st : TransporterState) : TransporterState × List Effect :=
  if st.isConnecting then
    (st, [])
  else
    ({ st with isConnected := false, isConnecting := true },
      (if st.isClosed then [] else [Effect.closeStream]) ++ [Effect.invokeConnect])

/-- One iteration of the endpoint-refresh loop body (transporter.go
lines 247-254), given the value `srv` returned by `GetServer` on this
tick.  The Go code compares `*srv != *transporter.wsNode` with no nil
check, so a failed resolution (`srv = none`) dereferences a nil pointer:
that runtime panic is the `none` result.  On a differing address the
cache is updated and `CloseAndReconnect` runs; on an equal address
nothing happens. -/
def endpointRefreshTick (srv : Option String) (st : TransporterState) :
    Option (TransporterState × List Effect) :=
  match srv with
  | none => none
  | some s =>
    match st.wsNode with
    | none => none
    | some cached =>
      if s = cached then some (st, [])
      else some (CloseAndReconnect { st with wsNode := some s })

/-- Outcome of the discovery HTTP exchange in `GetServer`
(transporter.go lines 185-195): the POST itself can fail, reading the
body can fail, or the body is read and either parses as JSON (`some j`)
or is not valid JSON (`none`). -/
inductive Fetch where
  | transportError : Fetch
  | readError : Fetch
  | body (parsed : Option Json) : Fetch

/-- Modelled from the spec: the declaration of `VerifyResponse` is not
under src (only its use in `GetServer` is); per the spec the response
body exposes the field `endpoints.ws`, the stream address, as the only
field this core consumes.  This function is Go encoding/json
unmarshalling of a JSON value into that struct, returning the `ws`
string on success and `none` on a decode error: a JSON value that is
not an object (or null) does not decode into a struct, nor does an
`endpoints` field that is not an object (or null) or a `ws` field that
is not a string (or null); absent fields keep their zero value (the
empty string). -/
def unmarshalVerifyResponse : Json → Option String
  | Json.null => some ""
  | Json.obj fields =>
    match lookupField fields "endpoints" with
    | none => some ""
    | some Json.null => some ""
    | some (Json.obj eps) =>
      match lookupField eps "ws" with
      | none => some ""
      | some Json.null => some ""
      | some (Json.str s) => some s
      | some _ => none
    | some _ => none
  | _ => none

/-- `Transporter.GetServer` (transporter.go lines 172-200): on a POST
error, a body-read error, or a JSON-unmarshalling error it returns nil;
otherwise it returns `&response.Endpoints.WS`.  The single `Fetch`
argument is the one exchange this call performs: there is no retry
inside the function. -/
def GetServer (r : Fetch) : Option String :=
  match r with
  | Fetch.transportError => none
  | Fetch.readError => none
  | Fetch.body none => none
  | Fetch.body (some j) => unmarshalVerifyResponse j

/-- The action `Connect` takes after its resolution phase. -/
inductive ConnectAction where
  | scheduleRetry (delaySeconds : Nat) : ConnectAction
  | dial (endpoint : String) : ConnectAction
deriving DecidableEq

/-- The resolution phase of `Transporter.Connect` (transporter.go lines
202-221): if no endpoint is cached, cache the result of `GetServer`
(passed here as `getServerResult`); if the cache is still nil, spawn a
background task that sleeps 10 seconds and calls `Connect` again, and
return immediately; otherwise proceed to dial the cached endpoint with
the handshake headers. -/
def Connect (getServerResult : Option String) (st : TransporterState) :
    TransporterState × ConnectAction :=
  let st1 := if st.wsNode = none then { st with wsNode := getServerResult } else st
  match st1.wsNode with
  | none => (st1, ConnectAction.scheduleRetry 10)
  | some e => (st1, ConnectAction.dial e)

/-- The `Message` struct (transporter.go lines 152-155): the outbound
envelope, a channel string plus an arbitrary payload, serialized with
field tags `payload` and `channel`. -/
structure Message where
  Payload : Json
  Channel : String

/-- Go `json.Marshal` of a `Message` value at the JSON-AST level: an
object with the tagged fields `payload` and `channel`, in struct
declaration order. -/
def Message.marshal (m : Message) : Json :=
  Json.obj [("payload", m.Payload), ("channel", Json.str m.Channel)]

/-- Go `json.Unmarshal` of a JSON value into a `Message` struct: the
value must be an object (or null); `payload` has interface type so any
JSON value decodes into it (absent keeps nil, modelled as null);
`channel` must be a string (or null or absent, keeping the zero
value). -/
def Message.unmarshal : Json → Option Message
  | Json.null => some { Payload := Json.null, Channel := "" }
  | Json.obj fields =>
    let payload := (lookupField fields "payload").getD Json.null
    match lookupField fields "channel" with
    | none => some { Payload := payload, Channel := "" }
    | some Json.null => some { Payload := payload, Channel := "" }
    | some (Json.str s) => some { Payload := payload, Channel := s }
    | some _ => none
  | _ => none

/-- `Transporter.SendJson` (transporter.go lines 333-350): marshal the
message (total at the AST level), take the write lock, and if not
connected return with nothing written and nothing changed; otherwise
write the frame under a 30-second deadline, and on a write error
(`writeOk = false`) run `CloseAndReconnect`. -/
def SendJson (writeOk : Bool) (st : TransporterState) (msg : Json) :
    TransporterState × List Effect :=
  if st.isConnected then
    if writeOk then (st, [Effect.write msg])
    else
      let r := CloseAndReconnect st
      (r.1, Effect.write msg :: r.2)
  else (st, [])

/-- Modelled from the spec: the declaration of `PayLoad` is not under
src (only its construction in `Send` is); per the spec the payload
wraps a timestamp in epoch millis, the process identity (id, name,
server), the arbitrary data, connectivity flags and the local IP. -/
def mkPayload (now : Int) (name serverName : String) (data : Json)
    (ip : String) : Json :=
  Json.obj [("at", Json.num now),
    ("process", Json.obj [("pm_id", Json.num 0), ("name", Json.str name),
      ("server", Json.str serverName)]),
    ("data", data), ("active", Json.bool true),
    ("server_name", Json.str serverName), ("protected", Json.bool false),
    ("rev_con", Json.bool true), ("internal_ip", Json.str ip)]

/-- `Transporter.Send` (transporter.go lines 352-370): wrap the data in
a `Message` whose payload is the enriched `PayLoad` envelope and pass
it to `SendJson`.  The ambient timestamp, config name, server name and
local IP are explicit arguments here. -/
def Send (writeOk : Bool) (st : TransporterState) (channel : String)
    (data : Json) (now : Int) (name serverName ip : String) :
    TransporterState × List Effect :=
  SendJson writeOk st
    (Message.marshal
      { Channel := channel,
        Payload := mkPayload now name serverName data ip })

/-- The action registry: a list of registered actions, each a name
together with its optional callback, the callback modelled by the
string it returns. -/
def ActionRegistry := List (String × Option String)

/-- Lookup of a registered action by name. -/
def lookupAction : List (String × Option String) → String → Option (Option String)
  | [], _ => none
  | (n, cb) :: rest, name => if n = name then some cb else lookupAction rest name

/-- Modelled from the spec: `CallAction` is called by the dispatcher
but declared outside src; per the spec the registry is consulted by
name and the callback invoked synchronously, callback absence yielding
an empty/undefined result rather than a fault. -/
def CallAction (registry : List (String × Option String)) (name : String) :
    Option String :=
  match lookupAction registry name with
  | none => none
  | some cb => cb

/-- An outbound frame emitted by the dispatcher: either a call to
`Send` (channel plus data map) or a direct `SendJson` of a literal
map. -/
inductive Outbound where
  | send (channel : String) (data : Json) : Outbound
  | sendJson (msg : Json) : Outbound

/-- Result of handling one inbound frame. -/
inductive DispatchResult where
  | sent (outbound : List Outbound) : DispatchResult
  | unrecognized (channel : String) : DispatchResult
  | panicked : DispatchResult

/-- One successful-read iteration of `Transporter.MessagesHandler`
(transporter.go lines 290-329) on the raw frame bytes, given as their
parse result (`none` when the bytes are not valid JSON).  The bytes are
unmarshalled into a `map[string]interface` value, so a non-object body
is also an unmarshal error; an unmarshal error panics.  A
`trigger:action` frame asserts the payload to a map and the action
name to a string (failed assertions panic), calls the action, and sends
`trigger:action:success` then `axm:reply`.  A `trigger:pm2:action`
frame with method `startLogging` replies on `trigger:pm2:result` via a
raw `SendJson`.  Any other channel is logged via a string assertion on
the channel value. -/
def handleMessage (registry : List (String × Option String))
    (raw : Option Json) : DispatchResult :=
  match raw with
  | none => DispatchResult.panicked
  | some dat =>
    match dat with
    | Json.obj fields =>
      match lookupField fields "channel" with
      | some (Json.str "trigger:action") =>
        match lookupField fields "payload" with
        | some (Json.obj payload) =>
          match lookupField payload "action_name" with
          | some (Json.str name) =>
            let response := CallAction registry name
            DispatchResult.sent
              [Outbound.send "trigger:action:success"
                (Json.obj [("success", Json.bool true),
                  ("id", (lookupField payload "process_id").getD Json.null),
                  ("action_name", Json.str name)]),
               Outbound.send "axm:reply"
                (Json.obj [("action_name", Json.str name),
                  ("return", match response with
                    | some s => Json.str s
                    | none => Json.null)])]
          | _ => DispatchResult.panicked
        | _ => DispatchResult.panicked
      | some (Json.str "trigger:pm2:action") =>
        match lookupField fields "payload" with
        | some (Json.obj payload) =>
          match lookupField payload "method_name" with
          | some (Json.str "startLogging") =>
            DispatchResult.sent
              [Outbound.sendJson
                (Json.obj [("channel", Json.str "trigger:pm2:result"),
                  ("payload", Json.obj [("ret", Json.obj [("err", Json.null)])])])]
          | _ => DispatchResult.sent []
        | _ => DispatchResult.panicked
      | some (Json.str ch) => DispatchResult.unrecognized ch
      | _ => DispatchResult.panicked
    | _ => DispatchResult.panicked

/-- Process-level state for the loop-lifecycle claims: the transporter
state plus whether the two ticker fields are non-nil and how many
heartbeat-loop and dispatcher goroutines are currently running. -/
structure LoopState where
  ts : TransporterState
  heartbeatTickerSet : Bool
  serverTickerSet : Bool
  activeHeartbeatLoops : Nat
  activeDispatchers : Nat
deriving DecidableEq

/-- `Transporter.SetHandlers` (transporter.go lines 258-279): set
`isHandling`, spawn a `MessagesHandler` goroutine, and spawn a
heartbeat goroutine that returns immediately when `heartbeatTicker` is
already non-nil and otherwise creates the ticker and enters the ping
loop. -/
def SetHandlersL (s : LoopState) : LoopState :=
  let s1 := { s with ts := { s.ts with isHandling := true },
                     activeDispatchers := s.activeDispatchers + 1 }
  if s1.heartbeatTickerSet then s1
  else { s1 with heartbeatTickerSet := true,
                 activeHeartbeatLoops := s1.activeHeartbeatLoops + 1 }

/-- `Transporter.Connect` on the path where an endpoint is cached and
the dial succeeds (transporter.go lines 221-256): mark connected, clear
connecting, call `SetHandlers` only when `isHandling` is false, and
spawn the server-ticker goroutine, which returns immediately when
`serverTicker` is already non-nil. -/
def ConnectSuccessL (s : LoopState) : LoopState :=
  let s1 := { s with ts := { s.ts with isConnected := true, isConnecting := false } }
  let s2 := if s1.ts.isHandling then s1 else SetHandlersL s1
  if s2.serverTickerSet then s2 else { s2 with serverTickerSet := true }

/-- `Transporter.CloseAndReconnect` at the loop level, on the path
where the ensuing dial succeeds: guard on `isConnecting`, mark
disconnected and connecting, and run `Connect`. -/
def CloseAndReconnectSuccessL (s : LoopState) : LoopState :=
  if s.ts.isConnecting then s
  else ConnectSuccessL
    { s with ts := { s.ts with isConnected := false, isConnecting := true } }

/-- The heartbeat-loop body on a tick whose ping write fails
(transporter.go lines 269-276): call `CloseAndReconnect` (which here
redials successfully) and then return from the loop, ending this
heartbeat goroutine. -/
def heartbeatWriteErrorL (s : LoopState) : LoopState :=
  let s1 := CloseAndReconnectSuccessL s
  { s1 with activeHeartbeatLoops := s1.activeHeartbeatLoops - 1 }

/-- The process state before the first `Connect`: all flags false, both
tickers nil, no loops running (transporter.go lines 157-170). -/
def initialLoopState : LoopState :=
  { ts := { isConnected := false, isHandling := false, isConnecting := false,
            isClosed := false, wsNode := some "wss://node" },
    heartbeatTickerSet := false, serverTickerSet := false,
    activeHeartbeatLoops := 0, activeDispatchers := 0 }

/-- C1: if the connecting guard is true, `CloseAndReconnect` returns
immediately with no state mutation and no effect (in particular it does
not invoke `Connect`); if the guard is false it closes the stream
exactly when the remote peer had not already closed it, sets
`isConnected := false`, sets `isConnecting := true`, and invokes
`Connect`. -/
theorem CloseAndReconnect_guard_and_transition (st : TransporterState) :
    (st.isConnecting = true → CloseAndReconnect st = (st, [])) ∧
    (st.isConnecting = false →
      CloseAndReconnect st =
        ({ st with isConnected := false, isConnecting := true },
          (if st.isClosed then [] else [Effect.closeStream]) ++ [Effect.invokeConnect])) := by
  constructor
  · intro h
    simp [CloseAndReconnect, h]
  · intro h
    simp [CloseAndReconnect, h]

/-- Witness for C1: a state with the guard set is returned untouched, and
a guarded-off state with an open stream is closed, marked disconnected
and connecting, and `Connect` is invoked. -/
theorem CloseAndReconnect_guard_and_transition_witness :
    CloseAndReconnect ⟨true, true, true, false, some "wss://a"⟩ =
      (⟨true, true, true, false, some "wss://a"⟩, []) ∧
    CloseAndReconnect ⟨true, true, false, false, some "wss://a"⟩ =
      (⟨false, true, true, false, some "wss://a"⟩,
        [Effect.closeStream, Effect.invokeConnect]) := by
  refine ⟨(CloseAndReconnect_guard_and_transition _).1 rfl, ?_⟩
  have h := (CloseAndReconnect_guard_and_transition
      ⟨true, true, false, false, some "wss://a"⟩).2 rfl
  simpa using h

/-- C2 (code bug): on a refresh tick whose resolution failed
(`GetServer` returned nil), the loop body dereferences the nil result
in `*srv != *transporter.wsNode` and panics, for every transporter
state — it does not treat the failure as "no change". -/
theorem endpointRefreshTick_failed_resolution_panics (st : TransporterState) :
    endpointRefreshTick none st = none := rfl

/-- C3: an inbound `trigger:action` frame whose payload names a
registered action makes the dispatcher emit exactly two outbound
frames, in order `trigger:action:success` then `axm:reply`, and the
`action_name` field of both frames is the requested action name. -/
theorem handleMessage_trigger_action (registry : List (String × Option String))
    (fields payload : List (String × Json)) (name : String)
    (_hreg : lookupAction registry name ≠ none)
    (hch : lookupField fields "channel" = some (Json.str "trigger:action"))
    (hpl : lookupField fields "payload" = some (Json.obj payload))
    (hname : lookupField payload "action_name" = some (Json.str name)) :
    ∃ d1 d2 : List (String × Json),
      handleMessage registry (some (Json.obj fields)) =
        DispatchResult.sent
          [Outbound.send "trigger:action:success" (Json.obj d1),
           Outbound.send "axm:reply" (Json.obj d2)] ∧
      lookupField d1 "action_name" = some (Json.str name) ∧
      lookupField d2 "action_name" = some (Json.str name) := by
  refine ⟨[("success", Json.bool true),
      ("id", (lookupField payload "process_id").getD Json.null),
      ("action_name", Json.str name)],
    [("action_name", Json.str name),
      ("return", match CallAction registry name with
        | some s => Json.str s
        | none => Json.null)], ?_, ?_, ?_⟩
  · simp [handleMessage, hch, hpl, hname]
  · simp [lookupField]
  · simp [lookupField]

/-- Witness for C3: the frame triggering the registered action `Test`
produces the success acknowledgment and the reply, in order, both
naming `Test`. -/
theorem handleMessage_trigger_action_witness :
    ∃ d1 d2 : List (String × Json),
      handleMessage [("Test", some "I am the test answer")]
        (some (Json.obj [("channel", Json.str "trigger:action"),
          ("payload", Json.obj [("action_name", Json.str "Test"),
            ("process_id", Json.num 0)])])) =
        DispatchResult.sent
          [Outbound.send "trigger:action:success" (Json.obj d1),
           Outbound.send "axm:reply" (Json.obj d2)] ∧
      lookupField d1 "action_name" = some (Json.str "Test") ∧
      lookupField d2 "action_name" = some (Json.str "Test") :=
  handleMessage_trigger_action [("Test", some "I am the test answer")]
    [("channel", Json.str "trigger:action"),
      ("payload", Json.obj [("action_name", Json.str "Test"),
        ("process_id", Json.num 0)])]
    [("action_name", Json.str "Test"), ("process_id", Json.num 0)]
    "Test" (by simp [lookupAction]) (by simp [lookupField])
    (by simp [lookupField]) (by simp [lookupField])

/-- C4: while not connected, `Send` (for every channel, data and
ambient identity) and `SendJson` (for every message) write nothing,
emit no effect and leave the transporter state unchanged — the message
is silently dropped. -/
theorem Send_disconnected_noop (writeOk : Bool) (st : TransporterState)
    (channel : String) (data : Json) (now : Int)
    (name serverName ip : String) (msg : Json)
    (h : st.isConnected = false) :
    Send writeOk st channel data now name serverName ip = (st, []) ∧
    SendJson writeOk st msg = (st, []) := by
  constructor <;> simp [Send, SendJson, h]

/-- Witness for C4: a concrete disconnected state drops a concrete
message without any effect or state change. -/
theorem Send_disconnected_noop_witness :
    (⟨false, true, false, false, some "wss://a"⟩ : TransporterState).isConnected
        = false ∧
    Send true ⟨false, true, false, false, some "wss://a"⟩ "axm:monitor"
        (Json.num 1) 0 "app" "srv" "127.0.0.1" =
      (⟨false, true, false, false, some "wss://a"⟩, []) ∧
    SendJson true ⟨false, true, false, false, some "wss://a"⟩ (Json.num 1) =
      (⟨false, true, false, false, some "wss://a"⟩, []) :=
  ⟨rfl,
    (Send_disconnected_noop true _ "axm:monitor" (Json.num 1) 0 "app" "srv"
      "127.0.0.1" (Json.num 1) rfl).1,
    (Send_disconnected_noop true _ "axm:monitor" (Json.num 1) 0 "app" "srv"
      "127.0.0.1" (Json.num 1) rfl).2⟩

/-- C5 (code bug): starting from the fresh process state, the first
successful `Connect` starts exactly one heartbeat loop; when a ping
write error then terminates that loop, the `CloseAndReconnect` it runs
redials successfully, yet afterwards zero heartbeat loops are active:
`isHandling` is still true so `Connect` does not call `SetHandlers`,
and the non-nil `heartbeatTicker` guard would make a new heartbeat
goroutine exit at once anyway — no fresh heartbeat loop is started,
contrary to the claim that exactly one is active. -/
theorem heartbeat_loop_lost_after_write_error :
    (ConnectSuccessL initialLoopState).activeHeartbeatLoops = 1 ∧
    (heartbeatWriteErrorL (ConnectSuccessL initialLoopState)).ts.isConnected
        = true ∧
    (heartbeatWriteErrorL (ConnectSuccessL initialLoopState)).activeHeartbeatLoops
        = 0 :=
  ⟨rfl, rfl, rfl⟩

/-- C6: `GetServer` returns nil on a transport error, on an unreadable
body and on a non-decodable body, and on success returns the endpoint
extracted from the body field `endpoints.ws`; the single `Fetch`
argument it consumes is the one exchange of the call, so there is no
retry inside it. -/
theorem GetServer_failure_and_success :
    GetServer Fetch.transportError = none ∧
    GetServer Fetch.readError = none ∧
    GetServer (Fetch.body none) = none ∧
    ∀ (fields eps : List (String × Json)) (s : String),
      lookupField fields "endpoints" = some (Json.obj eps) →
      lookupField eps "ws" = some (Json.str s) →
      GetServer (Fetch.body (some (Json.obj fields))) = some s := by
  refine ⟨rfl, rfl, rfl, ?_⟩
  intro fields eps s h1 h2
  simp [GetServer, unmarshalVerifyResponse, h1, h2]

/-- Witness for C6: a concrete response body whose `endpoints.ws` field
holds an address resolves to that address. -/
theorem GetServer_failure_and_success_witness :
    lookupField [("endpoints", Json.obj [("ws", Json.str "wss://x")])]
        "endpoints" = some (Json.obj [("ws", Json.str "wss://x")]) ∧
    lookupField [("ws", Json.str "wss://x")] "ws" = some (Json.str "wss://x") ∧
    GetServer (Fetch.body (some (Json.obj
        [("endpoints", Json.obj [("ws", Json.str "wss://x")])]))) =
      some "wss://x" :=
  ⟨by simp [lookupField], by simp [lookupField],
    GetServer_failure_and_success.2.2.2
      [("endpoints", Json.obj [("ws", Json.str "wss://x")])]
      [("ws", Json.str "wss://x")] "wss://x" (by simp [lookupField])
      (by simp [lookupField])⟩

/-- C7: when no endpoint is cached and resolution fails, `Connect`
leaves the state unchanged and its next action is to schedule a retry
of `Connect` after 10 seconds on a background task — it performs no
dial and returns at once. -/
theorem Connect_resolution_failure_schedules_retry (st : TransporterState)
    (h : st.wsNode = none) :
    Connect none st = (st, ConnectAction.scheduleRetry 10) := by
  cases st
  simp_all [Connect]

/-- Witness for C7: the fresh connecting state with no cached endpoint
schedules the 10-second retry. -/
theorem Connect_resolution_failure_schedules_retry_witness :
    (⟨false, false, true, false, none⟩ : TransporterState).wsNode = none ∧
    Connect none ⟨false, false, true, false, none⟩ =
      (⟨false, false, true, false, none⟩, ConnectAction.scheduleRetry 10) :=
  ⟨rfl, Connect_resolution_failure_schedules_retry _ rfl⟩

/-- C8: an inbound frame whose bytes are not decodable JSON makes the
dispatcher panic — a fatal local error aborting the dispatcher, for
every registry — rather than logging and continuing. -/
theorem handleMessage_undecodable_panics
    (registry : List (String × Option String)) :
    handleMessage registry none = DispatchResult.panicked := rfl

/-- C9: marshalling an outbound envelope and unmarshalling the result
restores exactly the same channel name and payload structure. -/
theorem Message_marshal_unmarshal_roundtrip (m : Message) :
    Message.unmarshal (Message.marshal m) = some m := by
  cases m
  simp [Message.marshal, Message.unmarshal, lookupField]

/-- Counterexample to C10 as stated: the empty JSON array is a valid
JSON body obtained with no transport or read error, yet `GetServer`
returns nil, because unmarshalling a non-object into the response
struct fails. -/
theorem GetServer_valid_json_nonobject_returns_nil :
    GetServer (Fetch.body (some (Json.arr []))) = none := rfl

/-- C10 (amended): when the body decodes into the response shape — a
JSON object — and contains no `endpoints.ws` field (the `endpoints`
field absent, or an object without `ws`), `GetServer` returns a
non-nil endpoint holding the empty string, and `Connect` caching that
result proceeds to dial the empty string. -/
theorem GetServer_decoded_missing_ws_dials_empty
    (fields : List (String × Json)) (st : TransporterState)
    (h : lookupField fields "endpoints" = none ∨
      ∃ eps, lookupField fields "endpoints" = some (Json.obj eps) ∧
        lookupField eps "ws" = none)
    (hn : st.wsNode = none) :
    GetServer (Fetch.body (some (Json.obj fields))) = some "" ∧
    (Connect (some "") st).2 = ConnectAction.dial "" := by
  constructor
  · rcases h with h | ⟨eps, h1, h2⟩
    · simp [GetServer, unmarshalVerifyResponse, h]
    · simp [GetServer, unmarshalVerifyResponse, h1, h2]
  · simp [Connect, hn]

/-- Witness for C10: a body object without an `endpoints` field yields
the empty endpoint and the ensuing dial of the empty string. -/
theorem GetServer_decoded_missing_ws_dials_empty_witness :
    GetServer (Fetch.body (some (Json.obj [("other", Json.num 1)]))) =
      some "" ∧
    (Connect (some "") ⟨false, false, true, false, none⟩).2 =
      ConnectAction.dial "" :=
  GetServer_decoded_missing_ws_dials_empty [("other", Json.num 1)] _
    (Or.inl (by simp [lookupField])) rfl

end Pm2Apm
